import Mathlib

/-
Shallow embedding of src/api/check-agentforce.ts (the authoritative variant
of the bullhorn_agentforce_proxy serverless function).

Network effects are modelled by an explicit state that carries oracle lists
of scripted responses for the three collaborators (the authority token
endpoint, the downstream Apex endpoint, the optional Redis cache) together
with call counters.  Each translated function threads this state.  Fallible
code returns Except; code that the source wraps in try/catch returns a
plain value, so that the type itself shows the failure cannot escape.
Timers (sleep) have no observable effect in the model and are omitted.
-/

namespace AgentforceProxy

/-- TokenCache record of the source: access_token, optional instance_url and
the acquisition timestamp fetched_at. -/
structure TokenCache where
  access_token : String
  instance_url : Option String
  fetched_at : Nat
deriving Repr, DecidableEq

/-- Response of the authority token endpoint as seen by fetchSfToken: a 2xx
JSON body carrying access_token and instance_url, or an error status with a
text body. -/
inductive TokenResp where
  | ok (access_token : String) (instance_url : Option String)
  | err (status : Nat) (body : String)
deriving Repr, DecidableEq

/-- Outcome of one network GET against the optional Redis store, as seen by
readRedis: the fetch threw, the response was not ok, the body failed to
parse as JSON, or a parsed value (null or a TokenCache record). -/
inductive RedisReadOutcome where
  | netError
  | badStatus
  | badJson
  | jsonValue (v : Option TokenCache)
deriving Repr, DecidableEq

/-- JSON values as delivered by resp.json().  Object fields model the result
of JSON.parse, so keys are assumed distinct.  Built-in properties of
primitives and arrays are not modelled; the source only reads the keys
isAgentforceUser and userId, which are never built-ins. -/
inductive JVal where
  | jnull
  | jbool (b : Bool)
  | jnum (n : Int)
  | jstr (s : String)
  | jarr (elems : List JVal)
  | jobj (fields : List (String × JVal))
deriving Repr

/-- Response of the downstream Apex endpoint: HTTP status, the JSON parse of
the body (none when resp.json() would reject), and the raw text used by the
error branches. -/
structure ApexResp where
  status : Nat
  body : Option JVal
  text : String
deriving Repr

/-- Execution state: the module-level memToken slot, the scripted collaborator
responses still unconsumed, call counters per collaborator, the count of
forced refreshes issued by the 401 branch of callApexWithAutoRefresh, and a
log of the Redis writes that completed. -/
structure St where
  memToken : Option TokenCache
  redisReads : List RedisReadOutcome
  redisWriteOutcomes : List Bool
  tokenResps : List TokenResp
  apexResps : List ApexResp
  tokenCalls : Nat
  apexCalls : Nat
  redisGetCalls : Nat
  redisSetCalls : Nat
  forcedRefreshes : Nat
  writes : List (TokenCache × Nat)
deriving Repr

/-- Static configuration: whether REDIS_URL is set, and the frozen clock used
for Date.now(). -/
structure Config where
  redisConfigured : Bool
  now : Nat
deriving Repr, DecidableEq

/-- Initial state with all counters at zero. -/
def initSt (mem : Option TokenCache) (rr : List RedisReadOutcome)
    (rw : List Bool) (tr : List TokenResp) (ar : List ApexResp) : St :=
  { memToken := mem, redisReads := rr, redisWriteOutcomes := rw,
    tokenResps := tr, apexResps := ar, tokenCalls := 0, apexCalls := 0,
    redisGetCalls := 0, redisSetCalls := 0, forcedRefreshes := 0, writes := [] }

/-- Case-insensitive substring test, modelling the test of the regex
/invalid_grant|login rate exceeded/i against the body for one alternative. -/
def containsSub (hay pat : String) : Bool :=
  let h := hay.data.map Char.toLower
  let p := pat.data.map Char.toLower
  (List.range (h.length + 1)).any fun i => (h.drop i).take p.length == p

/-- Whitespace test of the characters String.prototype.trim removes (the
common ones). -/
def isWsChar (c : Char) : Bool :=
  c == ' ' || c == '\t' || c == '\n' || c == '\r'

/-- Model of String.prototype.trim: strip leading and trailing whitespace. -/
def trimStr (s : String) : String :=
  String.mk (((s.data.dropWhile isWsChar).reverse.dropWhile isWsChar).reverse)

/-- Transience test of fetchSfToken in src/api/check-agentforce.ts: the body
matches /invalid_grant|login rate exceeded/i. -/
def transientSig (body : String) : Bool :=
  containsSub body "invalid_grant" || containsSub body "login rate exceeded"

/-- Truthiness of a JSON value under JavaScript coercion. -/
def truthy : JVal → Bool
  | .jnull => false
  | .jbool b => b
  | .jnum n => n != 0
  | .jstr s => s != ""
  | .jarr _ => true
  | .jobj _ => true

/-- Lookup of a field of a parsed JSON object. -/
def lookupField : List (String × JVal) → String → Option JVal
  | [], _ => none
  | (k2, v) :: rest, k => if k2 == k then some v else lookupField rest k

/-- Property read data?.k : none models undefined (optional chaining on null,
or a key the value does not carry). -/
def getProp : JVal → String → Option JVal
  | .jobj fields, k => lookupField fields k
  | _, _ => none

/-- Truthiness of fromRedis?.access_token and memToken?.access_token: the slot
holds a record whose access_token string is truthy (non-empty). -/
def hasTok : Option TokenCache → Bool
  | some tc => tc.access_token != ""
  | none => false

/-- Source readRedis: returns null without any network call when REDIS_URL is
unset; otherwise one GET whose every failure mode (thrown fetch, non-ok
status, unparseable body) is folded to null.  The return type has no error
channel: readRedis cannot throw. -/
def readRedis (cfg : Config) (s : St) : Option TokenCache × St :=
  if !cfg.redisConfigured then (none, s)
  else
    match s.redisReads with
    | [] => (none, { s with redisGetCalls := s.redisGetCalls + 1 })
    | o :: rest =>
      let s1 := { s with redisReads := rest, redisGetCalls := s.redisGetCalls + 1 }
      match o with
      | .netError => (none, s1)
      | .badStatus => (none, s1)
      | .badJson => (none, s1)
      | .jsonValue v => (v, s1)

/-- Source writeRedis: no-op when REDIS_URL is unset; otherwise one POST whose
outcome (completed or thrown) is consumed from the oracle and ignored either
way.  The return type is St alone: a write failure cannot escape. -/
def writeRedis (cfg : Config) (val : TokenCache) (ttl : Nat) (s : St) : St :=
  if !cfg.redisConfigured then s
  else
    match s.redisWriteOutcomes with
    | [] =>
      { s with redisSetCalls := s.redisSetCalls + 1 }
    | done :: rest =>
      let s1 := { s with redisWriteOutcomes := rest, redisSetCalls := s.redisSetCalls + 1 }
      if done then { s1 with writes := s1.writes ++ [(val, ttl)] } else s1

/-- Retry loop body of fetchSfToken, structurally recursive on the remaining
attempts.  Each iteration consumes one token-endpoint response: on 2xx it
builds the full TokenCache record, stores it in memToken, writes it to Redis
with a 45 minute TTL and returns it; on status 400 with a transient body it
retries; on any other error it stops and throws token_error with the last
body.  An exhausted oracle models a thrown fetch, which the source does not
catch. -/
def fetchSfTokenLoop (cfg : Config) : Nat → String → St → Except String TokenCache × St
  | 0, lastTxt, s => (.error ("token_error " ++ lastTxt), s)
  | fuel + 1, _lastTxt, s =>
    match s.tokenResps with
    | [] => (.error "network_error", { s with tokenCalls := s.tokenCalls + 1 })
    | r :: rest =>
      let s1 := { s with tokenResps := rest, tokenCalls := s.tokenCalls + 1 }
      match r with
      | .ok a i =>
        let token : TokenCache := { access_token := a, instance_url := i, fetched_at := cfg.now }
        let s2 := { s1 with memToken := some token }
        let s3 := writeRedis cfg token (45 * 60) s2
        (.ok token, s3)
      | .err status body =>
        if status == 400 && transientSig body then
          fetchSfTokenLoop cfg fuel body s1
        else
          (.error ("token_error " ++ body), s1)

/-- Source fetchSfToken: at most three attempts against the token endpoint. -/
def fetchSfToken (cfg : Config) (s : St) : Except String TokenCache × St :=
  fetchSfTokenLoop cfg 3 "" s

/-- Third stage of getSfToken: both caches missed, fetch a new token. -/
def getSfTokenFetch (cfg : Config) (s : St) : Except String String × St :=
  match fetchSfToken cfg s with
  | (.ok tc, s2) => (.ok tc.access_token, s2)
  | (.error e, s2) => (.error e, s2)

/-- Second stage of getSfToken: the Redis read missed, consult memToken. -/
def getSfTokenMem (cfg : Config) (s : St) : Except String String × St :=
  match s.memToken with
  | some mt =>
    if mt.access_token != "" then (.ok mt.access_token, s)
    else getSfTokenFetch cfg s
  | none => getSfTokenFetch cfg s

/-- Source getSfToken: checks Redis first, then memToken, then fetches a new
token.  A Redis hit also populates memToken. -/
def getSfToken (cfg : Config) (s : St) : Except String String × St :=
  let (fromRedis, s1) := readRedis cfg s
  match fromRedis with
  | some tc =>
    if tc.access_token != "" then (.ok tc.access_token, { s1 with memToken := some tc })
    else getSfTokenMem cfg s1
  | none => getSfTokenMem cfg s1

/-- One GET against the Apex endpoint, consuming a scripted response; an
exhausted oracle models a thrown fetch. -/
def apexFetch (s : St) : Option ApexResp × St :=
  match s.apexResps with
  | [] => (none, { s with apexCalls := s.apexCalls + 1 })
  | r :: rest => (some r, { s with apexResps := rest, apexCalls := s.apexCalls + 1 })

/-- Source callApexWithAutoRefresh: get a token, issue the GET; when the
status is exactly 401, force one refresh via a direct fetchSfToken call,
re-read the token and reissue the GET once.  Counts the direct call as a
forced refresh. -/
def callApexWithAutoRefresh (cfg : Config) (s : St) : Except String ApexResp × St :=
  match getSfToken cfg s with
  | (.error e, s1) => (.error e, s1)
  | (.ok _token, s1) =>
    match apexFetch s1 with
    | (none, s2) => (.error "network_error", s2)
    | (some resp, s2) =>
      if resp.status == 401 then
        let s2a := { s2 with forcedRefreshes := s2.forcedRefreshes + 1 }
        match fetchSfToken cfg s2a with
        | (.error e, s3) => (.error e, s3)
        | (.ok _, s3) =>
          match getSfToken cfg s3 with
          | (.error e, s4) => (.error e, s4)
          | (.ok _t2, s4) =>
            match apexFetch s4 with
            | (none, s5) => (.error "network_error", s5)
            | (some resp2, s5) => (.ok resp2, s5)
      else (.ok resp, s2)

/-- Test resp.ok of the fetch API: status within 200..299. -/
def respOk (r : ApexResp) : Bool :=
  200 ≤ r.status && r.status ≤ 299

/-- Result of the handler after the CORS preamble: 400 missing_integrationId,
502 apex_error with downstream status and detail, 200 with the decision, or
500 server_error from the top-level catch. -/
inductive HandlerResult where
  | badRequest
  | apexError (status : Nat) (detail : String)
  | decision (allowed : Bool) (userId : Option JVal) (status : Nat)
  | serverError (detail : String)
deriving Repr

/-- Evaluation of the userId line of the handler. The JavaScript test
data and userId in data short-circuits on falsy data, reads the key on
objects and arrays, and throws a TypeError on a truthy primitive; the
nullish coalescing folds a null field to null.  none models null. -/
def interpUserId (d : JVal) : Except String (Option JVal) :=
  if !truthy d then .ok none
  else
    match d with
    | .jobj fields =>
      match lookupField fields "userId" with
      | some .jnull => .ok none
      | some v => .ok (some v)
      | none => .ok none
    | .jarr _ => .ok none
    | _ => .error "TypeError: cannot use in operator"

/-- Evaluation of the allowed line of the handler: typeof
data?.isAgentforceUser is boolean selects the flag, anything else is false. -/
def interpAllowed (d : JVal) : Bool :=
  match getProp d "isAgentforceUser" with
  | some (.jbool b) => b
  | _ => false

/-- Shape normalisation of a parsed 2xx body: the allowed flag and the
userId, or the TypeError the userId line may throw. -/
def interpBody (d : JVal) : Except String (Bool × Option JVal) :=
  match interpUserId d with
  | .error e => .error e
  | .ok u => .ok (interpAllowed d, u)

/-- Source handler, from the integrationId validation on: empty id is a 400;
a non-ok downstream response is a 502 carrying its status and text; a 2xx
body that fails to parse, or any thrown error, reaches the top-level catch
as a 500 server_error; otherwise the normalised decision is returned with
the downstream status. -/
def handler (cfg : Config) (integrationId : String) (s : St) : HandlerResult × St :=
  if trimStr integrationId = "" then (.badRequest, s)
  else
    match callApexWithAutoRefresh cfg s with
    | (.error e, s1) => (.serverError e, s1)
    | (.ok resp, s1) =>
      if !respOk resp then (.apexError resp.status resp.text, s1)
      else
        match resp.body with
        | none => (.serverError "json_parse_error", s1)
        | some data =>
          match interpBody data with
          | .error e => (.serverError e, s1)
          | .ok (allowed, userId) => (.decision allowed userId resp.status, s1)

/-- Configuration without REDIS_URL, used by concrete scenarios. -/
def cfgMem : Config := { redisConfigured := false, now := 1000 }

/-- Configuration with REDIS_URL set, used by concrete scenarios. -/
def cfgRed : Config := { redisConfigured := true, now := 1000 }

/-- Concrete cached token record used by concrete scenarios. -/
def tokA : TokenCache := { access_token := "tokA", instance_url := none, fetched_at := 5 }

/-- Concrete external-cache token record used by concrete scenarios. -/
def tokB : TokenCache := { access_token := "tokB", instance_url := none, fetched_at := 7 }

/-- Downstream body of the fully well-formed success scenario. -/
def apexOkBody : JVal :=
  .jobj [("isAgentforceUser", .jbool true), ("userId", .jstr "u1")]

section FrameLemmas

variable (cfg : Config) (val : TokenCache) (ttl : Nat) (s : St)

theorem writeRedis_memToken : (writeRedis cfg val ttl s).memToken = s.memToken := by
  unfold writeRedis
  split
  · rfl
  · split
    · rfl
    · split <;> rfl

theorem writeRedis_tokenResps : (writeRedis cfg val ttl s).tokenResps = s.tokenResps := by
  unfold writeRedis
  split
  · rfl
  · split
    · rfl
    · split <;> rfl

theorem writeRedis_tokenCalls : (writeRedis cfg val ttl s).tokenCalls = s.tokenCalls := by
  unfold writeRedis
  split
  · rfl
  · split
    · rfl
    · split <;> rfl

theorem writeRedis_apexResps : (writeRedis cfg val ttl s).apexResps = s.apexResps := by
  unfold writeRedis
  split
  · rfl
  · split
    · rfl
    · split <;> rfl

theorem writeRedis_apexCalls : (writeRedis cfg val ttl s).apexCalls = s.apexCalls := by
  unfold writeRedis
  split
  · rfl
  · split
    · rfl
    · split <;> rfl

theorem writeRedis_forcedRefreshes :
    (writeRedis cfg val ttl s).forcedRefreshes = s.forcedRefreshes := by
  unfold writeRedis
  split
  · rfl
  · split
    · rfl
    · split <;> rfl

theorem writeRedis_redisReads : (writeRedis cfg val ttl s).redisReads = s.redisReads := by
  unfold writeRedis
  split
  · rfl
  · split
    · rfl
    · split <;> rfl

theorem readRedis_memToken : (readRedis cfg s).2.memToken = s.memToken := by
  unfold readRedis
  split
  · rfl
  · split
    · rfl
    · split <;> rfl

theorem readRedis_tokenResps : (readRedis cfg s).2.tokenResps = s.tokenResps := by
  unfold readRedis
  split
  · rfl
  · split
    · rfl
    · split <;> rfl

theorem readRedis_tokenCalls : (readRedis cfg s).2.tokenCalls = s.tokenCalls := by
  unfold readRedis
  split
  · rfl
  · split
    · rfl
    · split <;> rfl

theorem readRedis_apexResps : (readRedis cfg s).2.apexResps = s.apexResps := by
  unfold readRedis
  split
  · rfl
  · split
    · rfl
    · split <;> rfl

theorem readRedis_apexCalls : (readRedis cfg s).2.apexCalls = s.apexCalls := by
  unfold readRedis
  split
  · rfl
  · split
    · rfl
    · split <;> rfl

theorem readRedis_forcedRefreshes :
    (readRedis cfg s).2.forcedRefreshes = s.forcedRefreshes := by
  unfold readRedis
  split
  · rfl
  · split
    · rfl
    · split <;> rfl

theorem apexFetch_apexCalls : (apexFetch s).2.apexCalls = s.apexCalls + 1 := by
  unfold apexFetch
  split <;> rfl

end FrameLemmas

theorem fetchLoop_apex_frame (cfg : Config) :
    ∀ (fuel : Nat) (lastTxt : String) (s : St),
    (fetchSfTokenLoop cfg fuel lastTxt s).2.apexResps = s.apexResps ∧
    (fetchSfTokenLoop cfg fuel lastTxt s).2.apexCalls = s.apexCalls ∧
    (fetchSfTokenLoop cfg fuel lastTxt s).2.forcedRefreshes = s.forcedRefreshes := by
  intro fuel
  induction fuel with
  | zero => intro lastTxt s; exact ⟨rfl, rfl, rfl⟩
  | succ n ih =>
    intro lastTxt s
    unfold fetchSfTokenLoop
    rcases hr : s.tokenResps with _ | ⟨r, rest⟩
    · simp [hr]
    · rcases r with ⟨a, i⟩ | ⟨st, b⟩
      · simp [hr, writeRedis_apexResps, writeRedis_apexCalls, writeRedis_forcedRefreshes]
      · by_cases hb : (st == 400 && transientSig b) = true
        · simp only [hr, hb, if_true]
          exact ih b _
        · simp only [hr, Bool.not_eq_true] at hb ⊢
          simp [hb]

theorem fetchLoop_tokenCalls_mono (cfg : Config) :
    ∀ (fuel : Nat) (lastTxt : String) (s : St),
    s.tokenCalls ≤ (fetchSfTokenLoop cfg fuel lastTxt s).2.tokenCalls := by
  intro fuel
  induction fuel with
  | zero => intro lastTxt s; exact Nat.le_refl _
  | succ n ih =>
    intro lastTxt s
    unfold fetchSfTokenLoop
    rcases hr : s.tokenResps with _ | ⟨r, rest⟩
    · simp [hr]
    · rcases r with ⟨a, i⟩ | ⟨st, b⟩
      · simp only [hr]
        rw [writeRedis_tokenCalls]
        exact Nat.le_succ _
      · by_cases hb : (st == 400 && transientSig b) = true
        · simp only [hr, hb, if_true]
          have h := ih b { s with tokenResps := rest, tokenCalls := s.tokenCalls + 1 }
          have h2 : s.tokenCalls + 1 ≤ (fetchSfTokenLoop cfg n b
              { s with tokenResps := rest, tokenCalls := s.tokenCalls + 1 }).2.tokenCalls := h
          omega
        · simp only [hr, Bool.not_eq_true] at hb ⊢
          simp [hb]

theorem fetchLoop_tokenCalls_le (cfg : Config) :
    ∀ (fuel : Nat) (lastTxt : String) (s : St),
    (fetchSfTokenLoop cfg fuel lastTxt s).2.tokenCalls ≤ s.tokenCalls + fuel := by
  intro fuel
  induction fuel with
  | zero => intro lastTxt s; exact Nat.le_add_right _ _
  | succ n ih =>
    intro lastTxt s
    unfold fetchSfTokenLoop
    rcases hr : s.tokenResps with _ | ⟨r, rest⟩
    · simp [hr]
    · rcases r with ⟨a, i⟩ | ⟨st, b⟩
      · simp only [hr]
        rw [writeRedis_tokenCalls]
        simp
      · by_cases hb : (st == 400 && transientSig b) = true
        · simp only [hr, hb, if_true]
          have h := ih b { s with tokenResps := rest, tokenCalls := s.tokenCalls + 1 }
          have h2 : (fetchSfTokenLoop cfg n b
              { s with tokenResps := rest, tokenCalls := s.tokenCalls + 1 }).2.tokenCalls
              ≤ s.tokenCalls + 1 + n := h
          omega
        · simp only [hr, Bool.not_eq_true] at hb ⊢
          simp [hb]

theorem fetchLoop_tokenCalls_ge_one (cfg : Config) (fuel : Nat) (lastTxt : String) (s : St) :
    s.tokenCalls + 1 ≤ (fetchSfTokenLoop cfg (fuel + 1) lastTxt s).2.tokenCalls := by
  unfold fetchSfTokenLoop
  rcases hr : s.tokenResps with _ | ⟨r, rest⟩
  · simp [hr]
  · rcases r with ⟨a, i⟩ | ⟨st, b⟩
    · simp only [hr]
      rw [writeRedis_tokenCalls]
    · by_cases hb : (st == 400 && transientSig b) = true
      · simp only [hr, hb, if_true]
        have h := fetchLoop_tokenCalls_mono cfg fuel b
          { s with tokenResps := rest, tokenCalls := s.tokenCalls + 1 }
        have h2 : s.tokenCalls + 1 ≤ (fetchSfTokenLoop cfg fuel b
            { s with tokenResps := rest, tokenCalls := s.tokenCalls + 1 }).2.tokenCalls := h
        omega
      · simp only [hr, Bool.not_eq_true] at hb ⊢
        simp [hb]

theorem fetchLoop_memToken (cfg : Config) :
    ∀ (fuel : Nat) (lastTxt : String) (s : St),
    (∃ e, (fetchSfTokenLoop cfg fuel lastTxt s).1 = .error e ∧
      (fetchSfTokenLoop cfg fuel lastTxt s).2.memToken = s.memToken) ∨
    (∃ r, (fetchSfTokenLoop cfg fuel lastTxt s).1 = .ok r ∧
      (fetchSfTokenLoop cfg fuel lastTxt s).2.memToken = some r) := by
  intro fuel
  induction fuel with
  | zero => intro lastTxt s; exact .inl ⟨_, rfl, rfl⟩
  | succ n ih =>
    intro lastTxt s
    unfold fetchSfTokenLoop
    rcases hr : s.tokenResps with _ | ⟨r, rest⟩
    · simp [hr]
    · rcases r with ⟨a, i⟩ | ⟨st, b⟩
      · simp only [hr]
        refine .inr ⟨_, rfl, ?_⟩
        rw [writeRedis_memToken]
      · by_cases hb : (st == 400 && transientSig b) = true
        · simp only [hr, hb, if_true]
          exact ih b _
        · simp only [hr, Bool.not_eq_true] at hb ⊢
          simp [hb]

theorem fetchSfToken_apex_frame (cfg : Config) (s : St) :
    (fetchSfToken cfg s).2.apexResps = s.apexResps ∧
    (fetchSfToken cfg s).2.apexCalls = s.apexCalls ∧
    (fetchSfToken cfg s).2.forcedRefreshes = s.forcedRefreshes :=
  fetchLoop_apex_frame cfg 3 "" s

theorem fetchSfToken_tokenCalls_ge_one (cfg : Config) (s : St) :
    s.tokenCalls + 1 ≤ (fetchSfToken cfg s).2.tokenCalls :=
  fetchLoop_tokenCalls_ge_one cfg 2 "" s

theorem fetchSfToken_tokenCalls_le (cfg : Config) (s : St) :
    (fetchSfToken cfg s).2.tokenCalls ≤ s.tokenCalls + 3 :=
  fetchLoop_tokenCalls_le cfg 3 "" s

theorem fetchSfToken_memToken (cfg : Config) (s : St) :
    (∃ e, (fetchSfToken cfg s).1 = .error e ∧
      (fetchSfToken cfg s).2.memToken = s.memToken) ∨
    (∃ r, (fetchSfToken cfg s).1 = .ok r ∧
      (fetchSfToken cfg s).2.memToken = some r) :=
  fetchLoop_memToken cfg 3 "" s

theorem getSfTokenFetch_apex_frame (cfg : Config) (s : St) :
    (getSfTokenFetch cfg s).2.apexResps = s.apexResps ∧
    (getSfTokenFetch cfg s).2.apexCalls = s.apexCalls ∧
    (getSfTokenFetch cfg s).2.forcedRefreshes = s.forcedRefreshes := by
  unfold getSfTokenFetch
  rcases hf : fetchSfToken cfg s with ⟨res, s2⟩
  have h := fetchSfToken_apex_frame cfg s
  rw [hf] at h
  cases res <;> simpa using h

theorem getSfTokenMem_apex_frame (cfg : Config) (s : St) :
    (getSfTokenMem cfg s).2.apexResps = s.apexResps ∧
    (getSfTokenMem cfg s).2.apexCalls = s.apexCalls ∧
    (getSfTokenMem cfg s).2.forcedRefreshes = s.forcedRefreshes := by
  unfold getSfTokenMem
  rcases hm : s.memToken with _ | mt
  · exact getSfTokenFetch_apex_frame cfg s
  · by_cases ht : (mt.access_token != "") = true
    · simp [ht]
    · simp only [Bool.not_eq_true] at ht
      simp [ht]
      exact getSfTokenFetch_apex_frame cfg s

theorem getSfToken_apex_frame (cfg : Config) (s : St) :
    (getSfToken cfg s).2.apexResps = s.apexResps ∧
    (getSfToken cfg s).2.apexCalls = s.apexCalls ∧
    (getSfToken cfg s).2.forcedRefreshes = s.forcedRefreshes := by
  unfold getSfToken
  rcases hr : readRedis cfg s with ⟨v, s1⟩
  have ha : s1.apexResps = s.apexResps := by
    have := readRedis_apexResps cfg s; rw [hr] at this; exact this
  have hb : s1.apexCalls = s.apexCalls := by
    have := readRedis_apexCalls cfg s; rw [hr] at this; exact this
  have hc : s1.forcedRefreshes = s.forcedRefreshes := by
    have := readRedis_forcedRefreshes cfg s; rw [hr] at this; exact this
  rcases v with _ | tc
  · have h := getSfTokenMem_apex_frame cfg s1
    simp [h.1, h.2.1, h.2.2, ha, hb, hc]
  · by_cases ht : (tc.access_token != "") = true
    · simp [ht, ha, hb, hc]
    · simp only [Bool.not_eq_true] at ht
      have h := getSfTokenMem_apex_frame cfg s1
      simp [ht, h.1, h.2.1, h.2.2, ha, hb, hc]

theorem callApex_apexCalls_le (cfg : Config) (s : St) :
    (callApexWithAutoRefresh cfg s).2.apexCalls ≤ s.apexCalls + 2 := by
  unfold callApexWithAutoRefresh
  rcases hg : getSfToken cfg s with ⟨e | tok, s1⟩
  · have h1 : s1.apexCalls = s.apexCalls := by
      have := (getSfToken_apex_frame cfg s).2.1; rw [hg] at this; exact this
    dsimp only
    omega
  · have h1 : s1.apexCalls = s.apexCalls := by
      have := (getSfToken_apex_frame cfg s).2.1; rw [hg] at this; exact this
    dsimp only
    rcases ha : apexFetch s1 with ⟨_ | resp, s2⟩
    · have h2 : s2.apexCalls = s1.apexCalls + 1 := by
        have := apexFetch_apexCalls s1; rw [ha] at this; exact this
      dsimp only
      omega
    · have h2 : s2.apexCalls = s1.apexCalls + 1 := by
        have := apexFetch_apexCalls s1; rw [ha] at this; exact this
      dsimp only
      by_cases h4 : (resp.status == 401) = true
      · simp only [h4, if_true]
        rcases hf : fetchSfToken cfg { s2 with forcedRefreshes := s2.forcedRefreshes + 1 }
          with ⟨fe | ftk, s3⟩
        · have h3 : s3.apexCalls = s2.apexCalls := by
            have := (fetchSfToken_apex_frame cfg
              { s2 with forcedRefreshes := s2.forcedRefreshes + 1 }).2.1
            rw [hf] at this; exact this
          dsimp only
          omega
        · have h3 : s3.apexCalls = s2.apexCalls := by
            have := (fetchSfToken_apex_frame cfg
              { s2 with forcedRefreshes := s2.forcedRefreshes + 1 }).2.1
            rw [hf] at this; exact this
          dsimp only
          rcases hg2 : getSfToken cfg s3 with ⟨e2 | t2, s4⟩
          · have h5 : s4.apexCalls = s3.apexCalls := by
              have := (getSfToken_apex_frame cfg s3).2.1; rw [hg2] at this; exact this
            dsimp only
            omega
          · have h5 : s4.apexCalls = s3.apexCalls := by
              have := (getSfToken_apex_frame cfg s3).2.1; rw [hg2] at this; exact this
            dsimp only
            rcases ha2 : apexFetch s4 with ⟨_ | resp2, s5⟩ <;>
            · have h6 : s5.apexCalls = s4.apexCalls + 1 := by
                have := apexFetch_apexCalls s4; rw [ha2] at this; exact this
              dsimp only
              omega
      · simp only [Bool.not_eq_true] at h4
        simp only [h4, Bool.false_eq_true, if_false]
        omega

theorem getSfTokenFetch_memToken (cfg : Config) (s : St) :
    (getSfTokenFetch cfg s).2.memToken = s.memToken ∨
    ∃ r, (getSfTokenFetch cfg s).2.memToken = some r ∧
      (getSfTokenFetch cfg s).1 = .ok r.access_token := by
  unfold getSfTokenFetch
  rcases hf : fetchSfToken cfg s with ⟨fe | ftk, s2⟩ <;>
    have h := fetchSfToken_memToken cfg s <;> rw [hf] at h <;> dsimp only
  · rcases h with ⟨e, _, hmem⟩ | ⟨r, habs, _⟩
    · exact .inl hmem
    · exact absurd habs (by simp)
  · rcases h with ⟨e, habs, _⟩ | ⟨r, hok, hmem⟩
    · exact absurd habs (by simp)
    · refine .inr ⟨ftk, ?_, rfl⟩
      have : ftk = r := by simpa using hok
      rw [this]; exact hmem

theorem getSfTokenMem_memToken (cfg : Config) (s : St) :
    (getSfTokenMem cfg s).2.memToken = s.memToken ∨
    ∃ r, (getSfTokenMem cfg s).2.memToken = some r ∧
      (getSfTokenMem cfg s).1 = .ok r.access_token := by
  unfold getSfTokenMem
  rcases hm : s.memToken with _ | mt
  · have h := getSfTokenFetch_memToken cfg s
    rw [hm] at h
    exact h
  · by_cases ht : (mt.access_token != "") = true
    · simp only [ht, if_true]
      exact .inl hm
    · simp only [Bool.not_eq_true] at ht
      simp only [ht, Bool.false_eq_true, if_false]
      have h := getSfTokenFetch_memToken cfg s
      rw [hm] at h
      exact h

theorem writeRedis_off (cfg : Config) (val : TokenCache) (ttl : Nat) (s : St)
    (h : cfg.redisConfigured = false) : writeRedis cfg val ttl s = s := by
  unfold writeRedis
  simp [h]

theorem getSfToken_mem_hit (cfg : Config) (s : St) (tc : TokenCache)
    (hredis : cfg.redisConfigured = false) (hmem : s.memToken = some tc)
    (htok : (tc.access_token != "") = true) :
    getSfToken cfg s = (.ok tc.access_token, s) := by
  unfold getSfToken readRedis getSfTokenMem
  simp [hredis, hmem, htok]

theorem apexFetch_cons (s : St) (r : ApexResp) (rest : List ApexResp)
    (h : s.apexResps = r :: rest) :
    apexFetch s = (some r, { s with apexResps := rest, apexCalls := s.apexCalls + 1 }) := by
  unfold apexFetch
  simp [h]

theorem fetchSfToken_ok_head (cfg : Config) (s : St) (a : String) (i : Option String)
    (trest : List TokenResp) (h : s.tokenResps = TokenResp.ok a i :: trest) :
    fetchSfToken cfg s =
      (.ok { access_token := a, instance_url := i, fetched_at := cfg.now },
       writeRedis cfg { access_token := a, instance_url := i, fetched_at := cfg.now } (45 * 60)
         { s with tokenResps := trest, tokenCalls := s.tokenCalls + 1,
                  memToken := some { access_token := a, instance_url := i, fetched_at := cfg.now } }) := by
  unfold fetchSfToken fetchSfTokenLoop
  simp [h]

theorem getSfTokenFetch_tokenCalls_ge_one (cfg : Config) (s : St) :
    s.tokenCalls + 1 ≤ (getSfTokenFetch cfg s).2.tokenCalls := by
  unfold getSfTokenFetch
  rcases hf : fetchSfToken cfg s with ⟨fe | ftk, s2⟩ <;>
    have h := fetchSfToken_tokenCalls_ge_one cfg s <;> rw [hf] at h <;> dsimp only <;> exact h

/-- Claim C7: for every get or set interaction with the optional external
cache, absence of the store or any failure of it (thrown fetch, non-ok
response, unparseable body) is treated exactly like a cache miss and never
surfaces as an error: reads yield none, writes return plain state, and the
token and downstream state is untouched. -/
theorem checkC7 (cfg : Config) (s : St) (val : TokenCache) (ttl : Nat) :
    (cfg.redisConfigured = false →
      readRedis cfg s = (none, s) ∧ writeRedis cfg val ttl s = s) ∧
    (∀ rest, s.redisReads = RedisReadOutcome.netError :: rest →
      (readRedis cfg s).1 = none) ∧
    (∀ rest, s.redisReads = RedisReadOutcome.badStatus :: rest →
      (readRedis cfg s).1 = none) ∧
    (∀ rest, s.redisReads = RedisReadOutcome.badJson :: rest →
      (readRedis cfg s).1 = none) ∧
    ((readRedis cfg s).2.memToken = s.memToken ∧
      (readRedis cfg s).2.tokenCalls = s.tokenCalls ∧
      (readRedis cfg s).2.apexCalls = s.apexCalls) ∧
    ((writeRedis cfg val ttl s).memToken = s.memToken ∧
      (writeRedis cfg val ttl s).tokenCalls = s.tokenCalls ∧
      (writeRedis cfg val ttl s).apexCalls = s.apexCalls) := by
  refine ⟨?_, ?_, ?_, ?_,
    ⟨readRedis_memToken .., readRedis_tokenCalls .., readRedis_apexCalls ..⟩,
    ⟨writeRedis_memToken .., writeRedis_tokenCalls .., writeRedis_apexCalls ..⟩⟩
  · intro h
    unfold readRedis writeRedis
    simp [h]
  · intro rest hr
    unfold readRedis
    cases hc : cfg.redisConfigured <;> simp [hc, hr]
  · intro rest hr
    unfold readRedis
    cases hc : cfg.redisConfigured <;> simp [hc, hr]
  · intro rest hr
    unfold readRedis
    cases hc : cfg.redisConfigured <;> simp [hc, hr]

/-- Claim C7 witness: a thrown external read is a miss, and an unconfigured
write is a no-op. -/
theorem checkC7_witness :
    (readRedis cfgRed (initSt (some tokA) [RedisReadOutcome.netError] [] [] [])).1 = none ∧
    writeRedis cfgMem tokA 60 (initSt (some tokA) [] [] [] []) =
      initSt (some tokA) [] [] [] [] := by
  refine ⟨?_, ?_⟩
  · exact (checkC7 cfgRed (initSt (some tokA) [RedisReadOutcome.netError] [] [] [])
      tokA 60).2.1 [] rfl
  · exact ((checkC7 cfgMem (initSt (some tokA) [] [] [] []) tokA 60).1 rfl).2

/-- Claim C9: the in-process cache is a single slot and the operations that
change it (acquisition inside fetchSfToken, read-through inside getSfToken)
replace it wholesale with a fully formed record: after fetchSfToken the slot
is unchanged on error and holds exactly the complete returned record on
success; after getSfToken the slot is either unchanged or holds a complete
record whose token is the one returned. -/
theorem checkC9 (cfg : Config) (s : St) :
    ((∃ e, (fetchSfToken cfg s).1 = .error e ∧
        (fetchSfToken cfg s).2.memToken = s.memToken) ∨
      (∃ r, (fetchSfToken cfg s).1 = .ok r ∧
        (fetchSfToken cfg s).2.memToken = some r)) ∧
    ((getSfToken cfg s).2.memToken = s.memToken ∨
      ∃ r, (getSfToken cfg s).2.memToken = some r ∧
        (getSfToken cfg s).1 = .ok r.access_token) := by
  refine ⟨fetchSfToken_memToken cfg s, ?_⟩
  unfold getSfToken
  rcases hr : readRedis cfg s with ⟨v, s1⟩
  have hm : s1.memToken = s.memToken := by
    have := readRedis_memToken cfg s; rw [hr] at this; exact this
  rcases v with _ | tc
  · dsimp only
    have h := getSfTokenMem_memToken cfg s1
    rw [hm] at h
    exact h
  · by_cases ht : (tc.access_token != "") = true
    · simp only [ht, if_true]
      exact .inr ⟨tc, rfl, rfl⟩
    · simp only [Bool.not_eq_true] at ht
      simp only [ht, Bool.false_eq_true, if_false]
      have h := getSfTokenMem_memToken cfg s1
      rw [hm] at h
      exact h

/-- Claim C2 counterexample: the transient signatures of the source are only
invalid_grant and login rate exceeded; a 400 whose body carries the
domain-routing-not-propagated text is terminal after a single attempt, with
the error carrying that body, although a second scripted response was
available. -/
theorem checkC2_counterexample :
    (fetchSfToken cfgMem (initSt none [] []
        [TokenResp.err 400 "request not supported on this domain",
         TokenResp.ok "t2" none] [])).1
      = .error "token_error request not supported on this domain" ∧
    (fetchSfToken cfgMem (initSt none [] []
        [TokenResp.err 400 "request not supported on this domain",
         TokenResp.ok "t2" none] [])).2.tokenCalls = 1 := by
  exact ⟨rfl, rfl⟩

/-- Claim C4 counterexample: with a token cached in the in-process slot and a
different record in the external store, getSfToken returns the external
token after one external read, so the in-process cache is not the first
cache consulted. -/
theorem checkC4_counterexample :
    (getSfToken cfgRed (initSt (some tokA)
        [RedisReadOutcome.jsonValue (some tokB)] [] [] [])).1 = .ok "tokB" ∧
    (getSfToken cfgRed (initSt (some tokA)
        [RedisReadOutcome.jsonValue (some tokB)] [] [] [])).1 ≠ .ok "tokA" ∧
    (getSfToken cfgRed (initSt (some tokA)
        [RedisReadOutcome.jsonValue (some tokB)] [] [] [])).2.redisGetCalls = 1 := by
  refine ⟨rfl, ?_, rfl⟩
  intro h
  have h2 : (Except.ok "tokB" : Except String String) = Except.ok "tokA" := h
  simp at h2

/-- Claim C5 counterexample: a forced refresh acquires newTok, but its
best-effort external write fails silently, the external store still serves
the stale record, and the next getSfToken returns the old token. -/
theorem checkC5_counterexample :
    (fetchSfToken cfgRed (initSt (some tokA)
        [RedisReadOutcome.jsonValue (some tokA)] [false]
        [TokenResp.ok "newTok" none] [])).1
      = .ok { access_token := "newTok", instance_url := none, fetched_at := 1000 } ∧
    (getSfToken cfgRed ((fetchSfToken cfgRed (initSt (some tokA)
        [RedisReadOutcome.jsonValue (some tokA)] [false]
        [TokenResp.ok "newTok" none] [])).2)).1 = .ok "tokA" ∧
    "tokA" ≠ "newTok" := by
  refine ⟨rfl, rfl, ?_⟩
  decide

/-- Claim C6 counterexample: with a token cached in-process and the external
store configured, getSfToken still issues one network GET against the
external store, so the call is not network-free; the token endpoint however
receives zero requests. -/
theorem checkC6_counterexample :
    (getSfToken cfgRed (initSt (some tokA) [RedisReadOutcome.netError] [] [] [])).2.redisGetCalls = 1 ∧
    (getSfToken cfgRed (initSt (some tokA) [RedisReadOutcome.netError] [] [] [])).2.tokenCalls = 0 ∧
    (getSfToken cfgRed (initSt (some tokA) [RedisReadOutcome.netError] [] [] [])).1 = .ok "tokA" :=
  ⟨rfl, rfl, rfl⟩

/-- Claim C3 counterexample: a 2xx downstream response whose JSON body is the
string hello has no boolean flag, yet the handler does not resolve it to a
deny decision: the userId line throws and the request fails through the
top-level catch as a 500 server_error. -/
theorem checkC3_counterexample :
    (handler cfgMem "abc" (initSt (some tokA) [] [] []
        [{ status := 200, body := some (JVal.jstr "hello"), text := "" }])).1
      = .serverError "TypeError: cannot use in operator" := rfl

/-- Claim C1: callApexWithAutoRefresh issues at most two downstream GETs for
every response sequence; when the first downstream status is exactly 401 and
the token manager cooperates, it performs exactly one forced refresh and one
reissue, and when the reissued response is again 401 the handler fails with
the apex_error carrying status 401, with no third downstream attempt. -/
theorem checkC1 (cfg : Config) (s : St) (iid : String) (tc : TokenCache)
    (r1 r2 : ApexResp) (arest : List ApexResp) (a : String) (i : Option String)
    (trest : List TokenResp)
    (hredis : cfg.redisConfigured = false)
    (hmem : s.memToken = some tc) (htok : (tc.access_token != "") = true)
    (hapex : s.apexResps = r1 :: r2 :: arest) (h401 : r1.status = 401)
    (htr : s.tokenResps = TokenResp.ok a i :: trest) (ha : (a != "") = true)
    (hid : ¬ trimStr iid = "") :
    (∀ (cfg2 : Config) (s2 : St),
      (callApexWithAutoRefresh cfg2 s2).2.apexCalls ≤ s2.apexCalls + 2) ∧
    (callApexWithAutoRefresh cfg s).1 = .ok r2 ∧
    (callApexWithAutoRefresh cfg s).2.apexCalls = s.apexCalls + 2 ∧
    (callApexWithAutoRefresh cfg s).2.forcedRefreshes = s.forcedRefreshes + 1 ∧
    (r2.status = 401 → (handler cfg iid s).1 = .apexError 401 r2.text) := by
  have hg1 := getSfToken_mem_hit cfg s tc hredis hmem htok
  have hf1 := apexFetch_cons s r1 (r2 :: arest) hapex
  have hft := fetchSfToken_ok_head cfg
    { s with apexResps := r2 :: arest, apexCalls := s.apexCalls + 1,
             forcedRefreshes := s.forcedRefreshes + 1 } a i trest htr
  rw [writeRedis_off cfg _ _ _ hredis] at hft
  have hg2 := getSfToken_mem_hit cfg
    { s with apexResps := r2 :: arest, apexCalls := s.apexCalls + 1,
             forcedRefreshes := s.forcedRefreshes + 1,
             tokenResps := trest, tokenCalls := s.tokenCalls + 1,
             memToken := some { access_token := a, instance_url := i, fetched_at := cfg.now } }
    { access_token := a, instance_url := i, fetched_at := cfg.now } hredis rfl ha
  have hf2 := apexFetch_cons
    { s with apexResps := r2 :: arest, apexCalls := s.apexCalls + 1,
             forcedRefreshes := s.forcedRefreshes + 1,
             tokenResps := trest, tokenCalls := s.tokenCalls + 1,
             memToken := some { access_token := a, instance_url := i, fetched_at := cfg.now } }
    r2 arest rfl
  have hcall : callApexWithAutoRefresh cfg s =
      (.ok r2,
       { s with apexResps := arest, apexCalls := s.apexCalls + 1 + 1,
                forcedRefreshes := s.forcedRefreshes + 1,
                tokenResps := trest, tokenCalls := s.tokenCalls + 1,
                memToken := some { access_token := a, instance_url := i,
                                   fetched_at := cfg.now } }) := by
    unfold callApexWithAutoRefresh
    rw [hg1]
    dsimp only
    rw [hf1]
    dsimp only
    simp only [h401, beq_self_eq_true, if_true]
    rw [hft]
    dsimp only
    rw [hg2]
    dsimp only
    rw [hf2]
  refine ⟨fun cfg2 s2 => callApex_apexCalls_le cfg2 s2, ?_, ?_, ?_, ?_⟩
  · rw [hcall]
  · rw [hcall]
  · rw [hcall]
  · intro h2
    unfold handler
    rw [if_neg hid]
    rw [hcall]
    dsimp only
    have hro : respOk r2 = false := by simp [respOk, h2]
    simp [hro, h2]

/-- Claim C1 witness: concrete run with a cached token, a cooperative token
endpoint and a downstream that answers 401 twice. -/
theorem checkC1_witness :
    (callApexWithAutoRefresh cfgMem (initSt (some tokA) [] [] [TokenResp.ok "n" none]
        [{ status := 401, body := none, text := "e1" },
         { status := 401, body := none, text := "e2" }])).1
      = .ok { status := 401, body := none, text := "e2" } ∧
    (callApexWithAutoRefresh cfgMem (initSt (some tokA) [] [] [TokenResp.ok "n" none]
        [{ status := 401, body := none, text := "e1" },
         { status := 401, body := none, text := "e2" }])).2.apexCalls = 2 ∧
    (callApexWithAutoRefresh cfgMem (initSt (some tokA) [] [] [TokenResp.ok "n" none]
        [{ status := 401, body := none, text := "e1" },
         { status := 401, body := none, text := "e2" }])).2.forcedRefreshes = 1 ∧
    (handler cfgMem "abc" (initSt (some tokA) [] [] [TokenResp.ok "n" none]
        [{ status := 401, body := none, text := "e1" },
         { status := 401, body := none, text := "e2" }])).1 = .apexError 401 "e2" := by
  have h := checkC1 cfgMem (initSt (some tokA) [] [] [TokenResp.ok "n" none]
      [{ status := 401, body := none, text := "e1" },
       { status := 401, body := none, text := "e2" }]) "abc" tokA
      { status := 401, body := none, text := "e1" }
      { status := 401, body := none, text := "e2" } [] "n" none []
      rfl rfl rfl rfl rfl rfl rfl (by decide)
  exact ⟨h.2.1, h.2.2.1, h.2.2.2.1, h.2.2.2.2 rfl⟩

/-- Claim C2 amended: fetchSfToken makes at most 3 attempts; a response whose
status and body do not satisfy the transience test (status 400 and a body
matching invalid_grant or login rate exceeded, case-insensitively) is
terminal after one attempt with the error carrying that body; two transient
400s followed by a 2xx succeed on the third attempt. -/
theorem checkC2_amended (cfg : Config) (s : St) (st : Nat) (b : String)
    (rest : List TokenResp) (b1 b2 : String) (a : String) (i : Option String)
    (rest3 : List TokenResp) :
    ((fetchSfToken cfg s).2.tokenCalls ≤ s.tokenCalls + 3) ∧
    (s.tokenResps = TokenResp.err st b :: rest →
      (st == 400 && transientSig b) = false →
      (fetchSfToken cfg s).1 = .error ("token_error " ++ b) ∧
      (fetchSfToken cfg s).2.tokenCalls = s.tokenCalls + 1) ∧
    (s.tokenResps = TokenResp.err 400 b1 :: TokenResp.err 400 b2 ::
        TokenResp.ok a i :: rest3 →
      transientSig b1 = true → transientSig b2 = true →
      (fetchSfToken cfg s).1
        = .ok { access_token := a, instance_url := i, fetched_at := cfg.now } ∧
      (fetchSfToken cfg s).2.tokenCalls = s.tokenCalls + 3) := by
  refine ⟨fetchSfToken_tokenCalls_le cfg s, ?_, ?_⟩
  · intro h hb
    constructor
    · unfold fetchSfToken fetchSfTokenLoop
      simp [h, hb]
    · unfold fetchSfToken fetchSfTokenLoop
      simp [h, hb]
  · intro h h1 h2
    constructor
    · simp [fetchSfToken, fetchSfTokenLoop, h, h1, h2]
    · simp [fetchSfToken, fetchSfTokenLoop, h, h1, h2, writeRedis_tokenCalls]

/-- Claim C2 witness: the attempts bound, an unrelated 400 body failing after
one attempt, and login rate exceeded twice then 200 succeeding on the third
attempt. -/
theorem checkC2_witness :
    ((fetchSfToken cfgMem (initSt none [] [] [TokenResp.err 500 "boom"] [])).2.tokenCalls
      ≤ 0 + 3) ∧
    (fetchSfToken cfgMem (initSt none [] []
        [TokenResp.err 400 "totally unrelated"] [])).1
      = .error "token_error totally unrelated" ∧
    (fetchSfToken cfgMem (initSt none [] []
        [TokenResp.err 400 "totally unrelated"] [])).2.tokenCalls = 1 ∧
    (fetchSfToken cfgMem (initSt none [] []
        [TokenResp.err 400 "login rate exceeded",
         TokenResp.err 400 "LOGIN rate exceeded again",
         TokenResp.ok "t3" none] [])).1
      = .ok { access_token := "t3", instance_url := none, fetched_at := 1000 } ∧
    (fetchSfToken cfgMem (initSt none [] []
        [TokenResp.err 400 "login rate exceeded",
         TokenResp.err 400 "LOGIN rate exceeded again",
         TokenResp.ok "t3" none] [])).2.tokenCalls = 3 := by
  have hA := (checkC2_amended cfgMem (initSt none [] [] [TokenResp.err 500 "boom"] [])
    400 "" [] "" "" "" none []).1
  have hB := (checkC2_amended cfgMem
    (initSt none [] [] [TokenResp.err 400 "totally unrelated"] [])
    400 "totally unrelated" [] "" "" "" none []).2.1 rfl (by decide)
  have hC := (checkC2_amended cfgMem
    (initSt none [] []
      [TokenResp.err 400 "login rate exceeded",
       TokenResp.err 400 "LOGIN rate exceeded again",
       TokenResp.ok "t3" none] [])
    400 "" [] "login rate exceeded" "LOGIN rate exceeded again" "t3" none []).2.2
    rfl (by decide) (by decide)
  exact ⟨hA, hB.1, hB.2, hC.1, hC.2⟩

/-- Claim C3 amended: for a 2xx downstream response whose body parses to a
JSON object with the boolean flag missing or wrong-typed, the handler does
not raise: it resolves allowed to false and passes the userId field through
(absent or null become none).  A body parsing to a truthy non-object
primitive instead escapes to the top-level catch (see the counterexample). -/
theorem checkC3_amended (cfg : Config) (s : St) (iid : String) (tc : TokenCache)
    (st : Nat) (txt : String) (fields : List (String × JVal)) (arest : List ApexResp)
    (hredis : cfg.redisConfigured = false) (hmem : s.memToken = some tc)
    (htok : (tc.access_token != "") = true) (hid : ¬ trimStr iid = "")
    (hst1 : 200 ≤ st) (hst2 : st ≤ 299)
    (hapex : s.apexResps
      = { status := st, body := some (JVal.jobj fields), text := txt } :: arest)
    (hflag : ∀ b, lookupField fields "isAgentforceUser" ≠ some (JVal.jbool b)) :
    ∃ u, interpUserId (JVal.jobj fields) = .ok u ∧
      (handler cfg iid s).1 = .decision false u st := by
  have hg1 := getSfToken_mem_hit cfg s tc hredis hmem htok
  have hf1 := apexFetch_cons s _ arest hapex
  have hne : (st == 401) = false := by
    simp only [beq_eq_false_iff_ne, ne_eq]
    omega
  have hcall : callApexWithAutoRefresh cfg s =
      (.ok { status := st, body := some (JVal.jobj fields), text := txt },
       { s with apexResps := arest, apexCalls := s.apexCalls + 1 }) := by
    unfold callApexWithAutoRefresh
    rw [hg1]
    dsimp only
    rw [hf1]
    dsimp only
    simp [hne]
  have hu : ∃ u, interpUserId (JVal.jobj fields) = Except.ok u := by
    rcases hl : lookupField fields "userId" with _ | v
    · exact ⟨none, by unfold interpUserId; simp [truthy, hl]⟩
    · cases v with
      | jnull => exact ⟨none, by unfold interpUserId; simp [truthy, hl]⟩
      | jbool b => exact ⟨some (.jbool b), by unfold interpUserId; simp [truthy, hl]⟩
      | jnum n => exact ⟨some (.jnum n), by unfold interpUserId; simp [truthy, hl]⟩
      | jstr s2 => exact ⟨some (.jstr s2), by unfold interpUserId; simp [truthy, hl]⟩
      | jarr xs => exact ⟨some (.jarr xs), by unfold interpUserId; simp [truthy, hl]⟩
      | jobj fs => exact ⟨some (.jobj fs), by unfold interpUserId; simp [truthy, hl]⟩
  have hallow : interpAllowed (JVal.jobj fields) = false := by
    unfold interpAllowed getProp
    rcases hl2 : lookupField fields "isAgentforceUser" with _ | v
    · simp [hl2]
    · cases v with
      | jbool b => exact absurd hl2 (hflag b)
      | jnull => simp [hl2]
      | jnum n => simp [hl2]
      | jstr s2 => simp [hl2]
      | jarr xs => simp [hl2]
      | jobj fs => simp [hl2]
  obtain ⟨u, hu⟩ := hu
  have hro : respOk { status := st, body := some (JVal.jobj fields), text := txt } = true := by
    simp only [respOk, Bool.and_eq_true, decide_eq_true_eq]
    exact ⟨hst1, hst2⟩
  refine ⟨u, hu, ?_⟩
  unfold handler
  rw [if_neg hid, hcall]
  dsimp only
  simp [hro, interpBody, hu, hallow]

/-- Claim C3 amended witness: an object body without the boolean flag yields
a deny decision carrying the userId field, without raising. -/
theorem checkC3_witness :
    (handler cfgMem "abc" (initSt (some tokA) [] [] []
        [{ status := 200,
           body := some (JVal.jobj [("x", JVal.jnum 1), ("userId", JVal.jstr "u9")]),
           text := "" }])).1
      = .decision false (some (JVal.jstr "u9")) 200 := by
  obtain ⟨u, hu, hh⟩ := checkC3_amended cfgMem
    (initSt (some tokA) [] [] []
      [{ status := 200,
         body := some (JVal.jobj [("x", JVal.jnum 1), ("userId", JVal.jstr "u9")]),
         text := "" }])
    "abc" tokA 200 "" [("x", JVal.jnum 1), ("userId", JVal.jstr "u9")] []
    rfl rfl rfl (by decide) (by decide) (by decide) rfl
    (by intro b h; simp [lookupField] at h)
  have hval : interpUserId (JVal.jobj [("x", JVal.jnum 1), ("userId", JVal.jstr "u9")])
      = Except.ok (some (JVal.jstr "u9")) := rfl
  have h3 := hval.symm.trans hu
  injection h3 with h4
  rw [← h4] at hh
  exact hh

/-- Claim C8: for every identity whose trimmed form is non-empty, a 2xx
downstream response with body carrying isAgentforceUser true and userId u1
yields the decision allowed true with userId u1. -/
theorem checkC8 (cfg : Config) (s : St) (iid : String) (tc : TokenCache)
    (st : Nat) (txt : String) (arest : List ApexResp)
    (hredis : cfg.redisConfigured = false) (hmem : s.memToken = some tc)
    (htok : (tc.access_token != "") = true) (hid : ¬ trimStr iid = "")
    (hst1 : 200 ≤ st) (hst2 : st ≤ 299)
    (hapex : s.apexResps = { status := st, body := some apexOkBody, text := txt } :: arest) :
    (handler cfg iid s).1 = .decision true (some (JVal.jstr "u1")) st := by
  have hg1 := getSfToken_mem_hit cfg s tc hredis hmem htok
  have hf1 := apexFetch_cons s _ arest hapex
  have hne : (st == 401) = false := by
    simp only [beq_eq_false_iff_ne, ne_eq]
    omega
  have hcall : callApexWithAutoRefresh cfg s =
      (.ok { status := st, body := some apexOkBody, text := txt },
       { s with apexResps := arest, apexCalls := s.apexCalls + 1 }) := by
    unfold callApexWithAutoRefresh
    rw [hg1]
    dsimp only
    rw [hf1]
    dsimp only
    simp [hne]
  have hro : respOk { status := st, body := some apexOkBody, text := txt } = true := by
    simp only [respOk, Bool.and_eq_true, decide_eq_true_eq]
    exact ⟨hst1, hst2⟩
  have hib : interpBody apexOkBody = .ok (true, some (JVal.jstr "u1")) := rfl
  unfold handler
  rw [if_neg hid, hcall]
  dsimp only
  simp [hro, hib]

/-- Claim C8 witness: concrete run with the well-formed success body. -/
theorem checkC8_witness :
    (handler cfgMem "abc" (initSt (some tokA) [] [] []
        [{ status := 200, body := some apexOkBody, text := "" }])).1
      = .decision true (some (JVal.jstr "u1")) 200 :=
  checkC8 cfgMem (initSt (some tokA) [] [] []
      [{ status := 200, body := some apexOkBody, text := "" }])
    "abc" tokA 200 "" [] rfl rfl rfl (by decide) (by decide) (by decide) rfl

/-- Claim C10: a 2xx downstream response whose body is not parseable as JSON
does not produce a deny decision: the parse failure reaches the top-level
catch and the request fails as a 500 server_error. -/
theorem checkC10 (cfg : Config) (s : St) (iid : String) (tc : TokenCache)
    (st : Nat) (txt : String) (arest : List ApexResp)
    (hredis : cfg.redisConfigured = false) (hmem : s.memToken = some tc)
    (htok : (tc.access_token != "") = true) (hid : ¬ trimStr iid = "")
    (hst1 : 200 ≤ st) (hst2 : st ≤ 299)
    (hapex : s.apexResps = { status := st, body := none, text := txt } :: arest) :
    (handler cfg iid s).1 = .serverError "json_parse_error" ∧
    ∀ (b : Bool) (u : Option JVal) (st2 : Nat),
      (handler cfg iid s).1 ≠ .decision b u st2 := by
  have hg1 := getSfToken_mem_hit cfg s tc hredis hmem htok
  have hf1 := apexFetch_cons s _ arest hapex
  have hne : (st == 401) = false := by
    simp only [beq_eq_false_iff_ne, ne_eq]
    omega
  have hcall : callApexWithAutoRefresh cfg s =
      (.ok { status := st, body := none, text := txt },
       { s with apexResps := arest, apexCalls := s.apexCalls + 1 }) := by
    unfold callApexWithAutoRefresh
    rw [hg1]
    dsimp only
    rw [hf1]
    dsimp only
    simp [hne]
  have hro : respOk { status := st, body := none, text := txt } = true := by
    simp only [respOk, Bool.and_eq_true, decide_eq_true_eq]
    exact ⟨hst1, hst2⟩
  have hfirst : (handler cfg iid s).1 = .serverError "json_parse_error" := by
    unfold handler
    rw [if_neg hid, hcall]
    dsimp only
    simp [hro]
  refine ⟨hfirst, ?_⟩
  intro b u st2 hcontra
  rw [hfirst] at hcontra
  simp at hcontra

/-- Claim C10 witness: a 2xx response with an unparseable body is a 500. -/
theorem checkC10_witness :
    (handler cfgMem "abc" (initSt (some tokA) [] [] []
        [{ status := 200, body := none, text := "not json" }])).1
      = .serverError "json_parse_error" :=
  (checkC10 cfgMem (initSt (some tokA) [] [] []
      [{ status := 200, body := none, text := "not json" }])
    "abc" tokA 200 "not json" [] rfl rfl rfl (by decide) (by decide) (by decide) rfl).1

/-- Claim C4 amended: getSfToken checks the external shared cache first and
the in-process cache second, acquiring only when both miss; an external hit
returns that token, populates the in-process slot (read-through) and makes
no token-endpoint call; an external miss with an in-process hit returns the
cached token without acquisition; a double miss reaches the acquisition
path, issuing at least one token-endpoint call. -/
theorem checkC4_amended (cfg : Config) (s : St) (tc mtc : TokenCache)
    (rrest : List RedisReadOutcome) :
    (cfg.redisConfigured = true →
      s.redisReads = RedisReadOutcome.jsonValue (some tc) :: rrest →
      (tc.access_token != "") = true →
      (getSfToken cfg s).1 = .ok tc.access_token ∧
      (getSfToken cfg s).2.memToken = some tc ∧
      (getSfToken cfg s).2.tokenCalls = s.tokenCalls) ∧
    (cfg.redisConfigured = true →
      s.redisReads = RedisReadOutcome.jsonValue none :: rrest →
      s.memToken = some mtc → (mtc.access_token != "") = true →
      (getSfToken cfg s).1 = .ok mtc.access_token ∧
      (getSfToken cfg s).2.tokenCalls = s.tokenCalls) ∧
    (cfg.redisConfigured = true →
      s.redisReads = RedisReadOutcome.jsonValue none :: rrest →
      s.memToken = none →
      s.tokenCalls + 1 ≤ (getSfToken cfg s).2.tokenCalls) := by
  refine ⟨?_, ?_, ?_⟩
  · intro hc hr ht
    unfold getSfToken readRedis
    simp [hc, hr, ht]
  · intro hc hr hm ht
    unfold getSfToken readRedis getSfTokenMem
    simp [hc, hr, hm, ht]
  · intro hc hr hm
    unfold getSfToken readRedis getSfTokenMem
    simp [hc, hr, hm]
    exact getSfTokenFetch_tokenCalls_ge_one cfg
      { s with memToken := none, redisReads := rrest, redisGetCalls := s.redisGetCalls + 1 }

/-- Claim C4 amended witness: external hit returning tokB over a cached tokA
with read-through, external miss falling back to the in-process tokA, and a
double miss reaching the acquisition path. -/
theorem checkC4_witness :
    ((getSfToken cfgRed (initSt (some tokA)
        [RedisReadOutcome.jsonValue (some tokB)] [] [] [])).1 = .ok "tokB" ∧
      (getSfToken cfgRed (initSt (some tokA)
        [RedisReadOutcome.jsonValue (some tokB)] [] [] [])).2.memToken = some tokB ∧
      (getSfToken cfgRed (initSt (some tokA)
        [RedisReadOutcome.jsonValue (some tokB)] [] [] [])).2.tokenCalls = 0) ∧
    ((getSfToken cfgRed (initSt (some tokA)
        [RedisReadOutcome.jsonValue none] [] [] [])).1 = .ok "tokA" ∧
      (getSfToken cfgRed (initSt (some tokA)
        [RedisReadOutcome.jsonValue none] [] [] [])).2.tokenCalls = 0) ∧
    (0 + 1 ≤ (getSfToken cfgRed (initSt none
        [RedisReadOutcome.jsonValue none] [] [TokenResp.ok "t" none] [])).2.tokenCalls) := by
  refine ⟨?_, ?_, ?_⟩
  · exact (checkC4_amended cfgRed (initSt (some tokA)
      [RedisReadOutcome.jsonValue (some tokB)] [] [] []) tokB tokA []).1 rfl rfl (by decide)
  · exact (checkC4_amended cfgRed (initSt (some tokA)
      [RedisReadOutcome.jsonValue none] [] [] []) tokB tokA []).2.1 rfl rfl rfl (by decide)
  · exact (checkC4_amended cfgRed (initSt none
      [RedisReadOutcome.jsonValue none] [] [TokenResp.ok "t" none] []) tokB tokA []).2.2
      rfl rfl rfl

/-- Claim C5 amended: fetchSfToken always issues at least one fresh
token-endpoint call regardless of the cache state, and on success replaces
the in-process record with the new one; with the external cache unconfigured
every subsequent getSfToken returns the newly acquired token.  When the
external cache is configured it may serve a stale record instead (see the
counterexample). -/
theorem checkC5_amended (cfg : Config) (s : St) :
    (s.tokenCalls + 1 ≤ (fetchSfToken cfg s).2.tokenCalls) ∧
    (∀ r, (fetchSfToken cfg s).1 = .ok r →
      (fetchSfToken cfg s).2.memToken = some r) ∧
    (cfg.redisConfigured = false → ∀ r, (fetchSfToken cfg s).1 = .ok r →
      (r.access_token != "") = true →
      (getSfToken cfg ((fetchSfToken cfg s).2)).1 = .ok r.access_token) := by
  have hmm : ∀ r, (fetchSfToken cfg s).1 = .ok r →
      (fetchSfToken cfg s).2.memToken = some r := by
    intro r hr
    rcases fetchSfToken_memToken cfg s with ⟨e, he, _⟩ | ⟨r2, hok, hm⟩
    · rw [hr] at he
      exact Except.noConfusion he
    · have h3 := hok.symm.trans hr
      injection h3 with h4
      rw [← h4]
      exact hm
  refine ⟨fetchSfToken_tokenCalls_ge_one cfg s, hmm, ?_⟩
  intro hredis r hr ht
  have hm2 := hmm r hr
  rw [getSfToken_mem_hit cfg ((fetchSfToken cfg s).2) r hredis hm2 ht]

/-- Claim C5 amended witness: a refresh over a populated cache issues a
token-endpoint call, stores the new record, and the next getSfToken
(external cache unconfigured) returns the new token. -/
theorem checkC5_witness :
    (0 + 1 ≤ (fetchSfToken cfgMem (initSt (some tokA) [] []
        [TokenResp.ok "newTok" none] [])).2.tokenCalls) ∧
    (fetchSfToken cfgMem (initSt (some tokA) [] []
        [TokenResp.ok "newTok" none] [])).2.memToken
      = some { access_token := "newTok", instance_url := none, fetched_at := 1000 } ∧
    (getSfToken cfgMem ((fetchSfToken cfgMem (initSt (some tokA) [] []
        [TokenResp.ok "newTok" none] [])).2)).1 = .ok "newTok" := by
  have h := checkC5_amended cfgMem (initSt (some tokA) [] [] [TokenResp.ok "newTok" none] [])
  exact ⟨h.1,
    h.2.1 { access_token := "newTok", instance_url := none, fetched_at := 1000 } rfl,
    h.2.2 rfl { access_token := "newTok", instance_url := none, fetched_at := 1000 }
      rfl (by decide)⟩

/-- Claim C6 amended: when the in-process cache holds a token, getSfToken
never reaches the token endpoint (zero acquisition requests) and resolves to
some token; with the external store configured it may still issue one
network read against that store (see the counterexample). -/
theorem checkC6_amended (cfg : Config) (s : St) (tc : TokenCache)
    (hmem : s.memToken = some tc) (htok : (tc.access_token != "") = true) :
    (getSfToken cfg s).2.tokenCalls = s.tokenCalls ∧
    ∃ t, (getSfToken cfg s).1 = .ok t := by
  unfold getSfToken
  rcases hr : readRedis cfg s with ⟨v, s1⟩
  have h1 : s1.tokenCalls = s.tokenCalls := by
    have := readRedis_tokenCalls cfg s; rw [hr] at this; exact this
  have h2 : s1.memToken = s.memToken := by
    have := readRedis_memToken cfg s; rw [hr] at this; exact this
  rcases v with _ | tc2
  · dsimp only
    unfold getSfTokenMem
    rw [h2, hmem]
    simp only [htok, if_true]
    exact ⟨h1, _, rfl⟩
  · by_cases ht2 : (tc2.access_token != "") = true
    · simp only [ht2, if_true]
      exact ⟨h1, _, rfl⟩
    · simp only [Bool.not_eq_true] at ht2
      simp only [ht2, Bool.false_eq_true, if_false]
      unfold getSfTokenMem
      rw [h2, hmem]
      simp only [htok, if_true]
      exact ⟨h1, _, rfl⟩

/-- Claim C6 amended witness: in-process hit with the external store
unconfigured performs zero token-endpoint calls. -/
theorem checkC6_witness :
    (getSfToken cfgMem (initSt (some tokA) [] [] [] [])).2.tokenCalls = 0 ∧
    (getSfToken cfgMem (initSt (some tokA) [] [] [] [])).1 = .ok "tokA" :=
  ⟨(checkC6_amended cfgMem (initSt (some tokA) [] [] [] []) tokA rfl (by decide)).1, rfl⟩

end AgentforceProxy
